import Mathlib

/-!
# Verification of the xeokit-sdk NavCubePlugin slice

A shallow embedding, in Lean 4, of the two JavaScript source files of this
repository slice:

* `src/viewer/scene/PerformanceModel/lib/colorAdjustment.js` — a shader
  fragment generator that appends a fixed block of GLSL lines to a string
  array;
* `src/plugins/NavCubePlugin/NavCubePlugin.js` — the NavCube gizmo plugin:
  configuration setters/getters, layout recomputation, camera
  synchronisation, mouse-event handlers and teardown.

JavaScript numbers are modelled exactly: configuration values, pixel
coordinates and layout quantities as rationals (`ℚ`), and the camera/vector
geometry (which involves square roots and trigonometry) as reals (`ℝ`).
JavaScript arrays of strings are modelled as `List String`.  External
collaborators that the plugin merely calls (the pick engine, the
`CubeTextureCanvas` area queries) are parameters of the handler functions.
-/

set_option autoImplicit false

/-! ## colorAdjustment.js

`colorAdjustment(src)` pushes a fixed sequence of GLSL source lines onto the
array `src`.  A JavaScript `push` appends at the end, so each push is
modelled as appending a one-element list. -/

/-- Shallow embedding of `colorAdjustment` from
`src/viewer/scene/PerformanceModel/lib/colorAdjustment.js`: each
`src.push("...")` of the source becomes an append of the same string. -/
def colorAdjustment (src : List String) : List String :=
  let src := src ++ ["uniform vec4 colorParams;"]
  let src := src ++ ["vec4 brightnessSaturationAndConstrast(vec4 color) \x7b"]
  let src := src ++ ["float brightness = colorParams.r;"]
  let src := src ++ ["float saturation = colorParams.g;"]
  let src := src ++ ["float contrast = colorParams.b;"]
  let src := src ++ ["vec3 finalColor = color.rgb * brightness;"]
  let src := src ++ ["float luminance = 0.2125 * color.r + 0.7154 * color.g + 0.0721 * color.b;"]
  let src := src ++ ["vec3 luminanceColor = vec3(luminance);"]
  let src := src ++ ["finalColor = mix(luminanceColor,finalColor,saturation);"]
  let src := src ++ ["vec3 avgColor = vec3(0.5);"]
  let src := src ++ ["finalColor = clamp(mix(avgColor,finalColor,contrast),0.0,1.0);"]
  let src := src ++ ["return vec4(finalColor,color.a);"]
  let src := src ++ ["\x7d"]
  src

/-- The fixed block of lines that `colorAdjustment` appends, listed once. -/
def colorAdjustmentLines : List String :=
  ["uniform vec4 colorParams;",
   "vec4 brightnessSaturationAndConstrast(vec4 color) \x7b",
   "float brightness = colorParams.r;",
   "float saturation = colorParams.g;",
   "float contrast = colorParams.b;",
   "vec3 finalColor = color.rgb * brightness;",
   "float luminance = 0.2125 * color.r + 0.7154 * color.g + 0.0721 * color.b;",
   "vec3 luminanceColor = vec3(luminance);",
   "finalColor = mix(luminanceColor,finalColor,saturation);",
   "vec3 avgColor = vec3(0.5);",
   "finalColor = clamp(mix(avgColor,finalColor,contrast),0.0,1.0);",
   "return vec4(finalColor,color.a);",
   "\x7d"]

theorem colorAdjustment_eq_append (src : List String) :
    colorAdjustment src = src ++ colorAdjustmentLines := by
  simp [colorAdjustment, colorAdjustmentLines]

/-! ## NavCubePlugin.js — configuration state, setters and layout

The plugin instance fields touched by the public setters, the layout
recomputation and the tick handler, from
`src/plugins/NavCubePlugin/NavCubePlugin.js`.  Each setter takes its
argument as an `Option`: `none` models a call with no argument (JavaScript
`undefined`, which triggers the default parameter; for the margin setters it
also covers `null`, which the source's ternary maps to the same default
`10`).  Each setter returns the new state paired with a `Bool` that is
`true` exactly when the setter invoked `this.error(...)`. -/

structure NavCubeState where
  cubeMeshVisible : Bool
  shadowVisible : Bool
  canvasVisibility : String
  canvasWidth : ℚ
  canvasHeight : ℚ
  styleWidth : ℚ
  styleHeight : ℚ
  styleTop : ℚ
  styleLeft : ℚ
  size : ℚ
  alignment : String
  leftMargin : ℚ
  rightMargin : ℚ
  topMargin : ℚ
  bottomMargin : ℚ
  cameraFly : Bool
  cameraFitFOV : ℚ
  cameraFlyDuration : ℚ
  needUpdateLayout : Bool
deriving DecidableEq

/-- `setVisible(visible = true)`: shows or hides the cube mesh, the shadow
mesh and the canvas, and marks the layout dirty. -/
def setVisible (s : NavCubeState) (visible : Option Bool) : NavCubeState × Bool :=
  let v := visible.getD true
  ({s with cubeMeshVisible := v, shadowVisible := v,
           canvasVisibility := if v then "visible" else "hidden",
           needUpdateLayout := true}, false)

/-- `getVisible()` returns `this._cubeMesh.visible`. -/
def getVisible (s : NavCubeState) : Bool := s.cubeMeshVisible

/-- `setSize(size = 200)`: stores the size, resizes the canvas backing store
and marks the layout dirty. -/
def setSize (s : NavCubeState) (size : Option ℚ) : NavCubeState × Bool :=
  let sz := size.getD 200
  ({s with size := sz, canvasWidth := sz, canvasHeight := sz,
           needUpdateLayout := true}, false)

/-- `getSize()` returns `this._size`. -/
def getSize (s : NavCubeState) : ℚ := s.size

/-- `setAlignment(alignment = "bottomRight")`: rejects anything outside the
four accepted corner names with an error and the default, then stores the
alignment and marks the layout dirty. -/
def setAlignment (s : NavCubeState) (alignment : Option String) : NavCubeState × Bool :=
  let a := alignment.getD ("bottomRight")
  if a ≠ "bottomRight" ∧ a ≠ "bottomLeft" ∧ a ≠ "topLeft" ∧ a ≠ "topRight" then
    ({s with alignment := "bottomRight", needUpdateLayout := true}, true)
  else
    ({s with alignment := a, needUpdateLayout := true}, false)

/-- `getAlignment()` returns `this._alignment`. -/
def getAlignment (s : NavCubeState) : String := s.alignment

/-- `setLeftMargin(leftMargin = 10)`: stores the margin (`null` and
`undefined` both fall back to `10`) and marks the layout dirty. -/
def setLeftMargin (s : NavCubeState) (m : Option ℚ) : NavCubeState × Bool :=
  ({s with leftMargin := m.getD 10, needUpdateLayout := true}, false)

/-- `getLeftMargin()` returns `this._leftMargin`. -/
def getLeftMargin (s : NavCubeState) : ℚ := s.leftMargin

/-- `setRightMargin(rightMargin = 10)`. -/
def setRightMargin (s : NavCubeState) (m : Option ℚ) : NavCubeState × Bool :=
  ({s with rightMargin := m.getD 10, needUpdateLayout := true}, false)

/-- `getRightMargin()` returns `this._rightMargin`. -/
def getRightMargin (s : NavCubeState) : ℚ := s.rightMargin

/-- `setTopMargin(topMargin = 10)`. -/
def setTopMargin (s : NavCubeState) (m : Option ℚ) : NavCubeState × Bool :=
  ({s with topMargin := m.getD 10, needUpdateLayout := true}, false)

/-- `getTopMargin()` returns `this._topMargin`. -/
def getTopMargin (s : NavCubeState) : ℚ := s.topMargin

/-- `setBottomMargin(bottomMargin = 10)`. -/
def setBottomMargin (s : NavCubeState) (m : Option ℚ) : NavCubeState × Bool :=
  ({s with bottomMargin := m.getD 10, needUpdateLayout := true}, false)

/-- `getBottomMargin()` returns `this._bottomMargin`. -/
def getBottomMargin (s : NavCubeState) : ℚ := s.bottomMargin

/-- `setCameraFly(cameraFly = true)`: stores the flag; does not touch the
layout flag. -/
def setCameraFly (s : NavCubeState) (b : Option Bool) : NavCubeState × Bool :=
  ({s with cameraFly := b.getD true}, false)

/-- `getCameraFly()` returns `this._cameraFly`. -/
def getCameraFly (s : NavCubeState) : Bool := s.cameraFly

/-- `setCameraFitFOV(cameraFitFOV = 45)`. -/
def setCameraFitFOV (s : NavCubeState) (v : Option ℚ) : NavCubeState × Bool :=
  ({s with cameraFitFOV := v.getD 45}, false)

/-- `getCameraFitFOV()` returns `this._cameraFitFOV`. -/
def getCameraFitFOV (s : NavCubeState) : ℚ := s.cameraFitFOV

/-- `setCameraFlyDuration(cameraFlyDuration = 0.5)`. -/
def setCameraFlyDuration (s : NavCubeState) (v : Option ℚ) : NavCubeState × Bool :=
  ({s with cameraFlyDuration := v.getD (1/2)}, false)

/-- `getCameraFlyDuration()` returns `this._cameraFlyDuration`. -/
def getCameraFlyDuration (s : NavCubeState) : ℚ := s.cameraFlyDuration

/-- The canvas boundary array `viewer.scene.canvas.boundary`; `b0..b3` are
`boundary[0]..boundary[3]`. -/
structure CanvasBoundary where
  b0 : ℚ
  b1 : ℚ
  b2 : ℚ
  b3 : ℚ
deriving DecidableEq

/-- `_updateLayout()`: writes the canvas style width/height from the stored
size, positions the canvas according to the stored alignment and the canvas
boundary, and clears the layout-dirty flag. -/
def updateLayout (boundary : CanvasBoundary) (s : NavCubeState) : NavCubeState :=
  let size := s.size
  let s := {s with styleWidth := size, styleHeight := size}
  let s :=
    if s.alignment = "bottomRight" then
      {s with styleTop := boundary.b1 + boundary.b3 - size - s.bottomMargin,
              styleLeft := boundary.b0 + boundary.b2 - size - s.rightMargin}
    else if s.alignment = "bottomLeft" then
      {s with styleTop := boundary.b1 + boundary.b3 - size - s.bottomMargin,
              styleLeft := s.leftMargin}
    else if s.alignment = "topLeft" then
      {s with styleTop := s.topMargin, styleLeft := s.leftMargin}
    else if s.alignment = "topRight" then
      {s with styleTop := s.topMargin,
              styleLeft := boundary.b0 + boundary.b2 - size - s.rightMargin}
    else s
  {s with needUpdateLayout := false}

/-- The `"boundary"` canvas event handler: marks the layout dirty. -/
def onCanvasBoundary (s : NavCubeState) : NavCubeState :=
  {s with needUpdateLayout := true}

/-- The `"tick"` scene event handler: recomputes the layout exactly when the
layout-dirty flag is set. -/
def onSceneTick (boundary : CanvasBoundary) (s : NavCubeState) : NavCubeState :=
  if s.needUpdateLayout then updateLayout boundary s else s

/-- A concrete plugin state matching the constructor's defaults, used to
instantiate universally quantified theorems. -/
def initialTestState : NavCubeState :=
  { cubeMeshVisible := true, shadowVisible := true, canvasVisibility := "visible",
    canvasWidth := 250, canvasHeight := 250, styleWidth := 250, styleHeight := 250,
    styleTop := 0, styleLeft := 0, size := 250, alignment := "bottomRight",
    leftMargin := 10, rightMargin := 10, topMargin := 10, bottomMargin := 10,
    cameraFly := true, cameraFitFOV := 45, cameraFlyDuration := 1/2,
    needUpdateLayout := true }

/-- A concrete canvas boundary used to instantiate theorems. -/
def testBoundary : CanvasBoundary := { b0 := 0, b1 := 0, b2 := 800, b3 := 600 }

/-! ## Vector math and camera synchronisation

`NavCubePlugin.js` calls helpers from `math.js`, which is not part of this
slice; they are modelled here over `ℝ` (the exact-real model of JavaScript
numbers). -/

/-- A 3-component vector of JavaScript numbers, modelled over `ℝ`. -/
@[ext]
structure Vec3 where
  x : ℝ
  y : ℝ
  z : ℝ

/-- Modelled from the spec: `math.subVec3(u, v)` from the missing
`math.js` — componentwise difference. -/
noncomputable def subVec3 (u v : Vec3) : Vec3 :=
  ⟨u.x - v.x, u.y - v.y, u.z - v.z⟩

/-- Modelled from the spec: `math.lenVec3(v)` from the missing `math.js` —
the Euclidean length. -/
noncomputable def lenVec3 (v : Vec3) : ℝ :=
  Real.sqrt (v.x ^ 2 + v.y ^ 2 + v.z ^ 2)

/-- Modelled from the spec: `math.mulVec3Scalar(v, s)` from the missing
`math.js` — componentwise scaling. -/
noncomputable def mulVec3Scalar (v : Vec3) (s : ℝ) : Vec3 :=
  ⟨v.x * s, v.y * s, v.z * s⟩

/-- Modelled from the spec: `math.normalizeVec3(v)` from the missing
`math.js` — scales by the reciprocal of the length. -/
noncomputable def normalizeVec3 (v : Vec3) : Vec3 :=
  mulVec3Scalar v (1 / lenVec3 v)

/-- Modelled from the spec: `math.DEGTORAD` from the missing `math.js`,
the degree-to-radian factor. -/
noncomputable def DEGTORAD : ℝ := Real.pi / 180

/-- A 4×4 matrix as used by `math.js`, reduced to the data its vector
transforms read: the 3×3 linear block and the translation column. -/
structure Mat4 where
  a00 : ℝ
  a01 : ℝ
  a02 : ℝ
  a10 : ℝ
  a11 : ℝ
  a12 : ℝ
  a20 : ℝ
  a21 : ℝ
  a22 : ℝ
  t0 : ℝ
  t1 : ℝ
  t2 : ℝ

/-- Modelled from the spec: `math.rotationMat4c(anglerad, x, y, z)` from the
missing `math.js`, instantiated at the axis `(1, 0, 0)` used by
`_synchCamera` — the rotation about the X axis by `anglerad` radians, with
zero translation. -/
noncomputable def rotationMat4cX (anglerad : ℝ) : Mat4 :=
  { a00 := 1, a01 := 0, a02 := 0,
    a10 := 0, a11 := Real.cos anglerad, a12 := -Real.sin anglerad,
    a20 := 0, a21 := Real.sin anglerad, a22 := Real.cos anglerad,
    t0 := 0, t1 := 0, t2 := 0 }

/-- Modelled from the spec: `math.transformVec3(m, v)` from the missing
`math.js` — applies the linear block only. -/
noncomputable def transformVec3 (m : Mat4) (v : Vec3) : Vec3 :=
  ⟨m.a00 * v.x + m.a01 * v.y + m.a02 * v.z,
   m.a10 * v.x + m.a11 * v.y + m.a12 * v.z,
   m.a20 * v.x + m.a21 * v.y + m.a22 * v.z⟩

/-- Modelled from the spec: `math.transformPoint3(m, v)` from the missing
`math.js` — applies the linear block and adds the translation column. -/
noncomputable def transformPoint3 (m : Mat4) (v : Vec3) : Vec3 :=
  ⟨m.a00 * v.x + m.a01 * v.y + m.a02 * v.z + m.t0,
   m.a10 * v.x + m.a11 * v.y + m.a12 * v.z + m.t1,
   m.a20 * v.x + m.a21 * v.y + m.a22 * v.z + m.t2⟩

/-- A camera pose: the fields of the NavCube camera that `_synchCamera`
assigns. -/
structure CameraPose where
  eye : Vec3
  look : Vec3
  up : Vec3

/-- `_synchCamera` from `NavCubePlugin.js`: reads the main camera's
`eye`/`look`/`up`, scales the normalised eye-look vector to length 5, and
writes the NavCube camera pose, routing `eye` through `transformVec3` and
`up` through `transformPoint3` with the fixed −90° X rotation when the Z-up
flag is set. -/
noncomputable def synchCamera (zUp : Bool) (eye look up : Vec3) : CameraPose :=
  let matrix := rotationMat4cX (-90 * DEGTORAD)
  let eyeLookVec := mulVec3Scalar (normalizeVec3 (subVec3 eye look)) 5
  if zUp then
    { look := ⟨0, 0, 0⟩,
      eye := transformVec3 matrix eyeLookVec,
      up := transformPoint3 matrix up }
  else
    { look := ⟨0, 0, 0⟩,
      eye := eyeLookVec,
      up := up }

/-! ## flyTo: the camera move on selecting a cube area -/

/-- The scene's axis-aligned bounding box `viewer.scene.aabb`, a 6-array
`[xmin, ymin, zmin, xmax, ymax, zmax]`. -/
structure AABB where
  xmin : ℝ
  ymin : ℝ
  zmin : ℝ
  xmax : ℝ
  ymax : ℝ
  zmax : ℝ

/-- Modelled from the spec: `math.getAABB3Center(aabb)` from the missing
`math.js` — the box midpoint. -/
noncomputable def getAABB3Center (a : AABB) : Vec3 :=
  ⟨(a.xmin + a.xmax) / 2, (a.ymin + a.ymax) / 2, (a.zmin + a.zmax) / 2⟩

/-- Modelled from the spec: `math.getAABB3Diag(aabb)` from the missing
`math.js` — the length of the box diagonal. -/
noncomputable def getAABB3Diag (a : AABB) : ℝ :=
  lenVec3 ⟨a.xmax - a.xmin, a.ymax - a.ymin, a.zmax - a.zmin⟩

/-- The camera move the plugin requests: `cameraFlight.flyTo` carries a
duration, `cameraFlight.jumpTo` does not. -/
inductive CameraMove where
  | fly (look eye up : Vec3) (orthoScale : ℝ) (fitFOV dur : ℚ)
  | jump (look eye up : Vec3) (orthoScale : ℝ) (fitFOV : ℚ)

/-- The local `flyTo(dir, up, ok)` closure of the constructor: computes the
target pose from the scene AABB and the picked area's direction and up
vectors, then flies or jumps according to the stored `_cameraFly` flag. -/
noncomputable def flyTo (cameraFly : Bool) (cameraFitFOV cameraFlyDuration : ℚ)
    (aabb : AABB) (dir : Vec3) (up : Option Vec3) : CameraMove :=
  let diag := getAABB3Diag aabb
  let center := getAABB3Center aabb
  let dist := |diag / Real.tan (55 / 2)|
  let eye : Vec3 := ⟨center.x - dist * dir.x, center.y - dist * dir.y,
                     center.z - dist * dir.z⟩
  let u := up.getD ⟨0, 1, 0⟩
  if cameraFly then
    CameraMove.fly center eye u (diag * 1.3) cameraFitFOV cameraFlyDuration
  else
    CameraMove.jump center eye u (diag * 1.3) cameraFitFOV

/-! ## Mouse-event handlers

The closure state of the constructor's event-handler block: `down`, `over`,
`downX`/`downY`, `lastX`/`lastY` and `lastAreaId`, together with the set of
currently highlighted texture areas of the `CubeTextureCanvas`.  The pick
engine and the `CubeTextureCanvas` queries (`getArea`, `getAreaDir`,
`getAreaUp`) live outside this slice, so each handler takes their answers as
parameters: `pickResult = none` models no hit, `some none` a hit without
usable `uv`/area, and `some (some a)` a hit whose `getArea` returned `a`.
`downX` and `downY` are always assigned together by the mousedown handler,
so they are carried as one optional pair. -/

structure MouseState where
  down : Bool
  over : Bool
  downPos : Option (ℚ × ℚ)
  lastPos : ℚ × ℚ
  lastAreaId : ℤ
  highlighted : Finset ℤ
  cursor : String
deriving DecidableEq

/-- Modelled from the spec: `CubeTextureCanvas.setAreaHighlighted(areaId,
highlighted)` of the missing `CubeTextureCanvas.js`, abstracted to what the
claims observe — membership of the area id in the set of highlighted
areas. -/
def setAreaHighlighted (hs : Finset ℤ) (areaId : ℤ) (b : Bool) : Finset ℤ :=
  if b then insert areaId hs else hs.erase areaId

/-- The `if (lastAreaId >= 0) { setAreaHighlighted(lastAreaId, false);
repaint(); lastAreaId = -1; }` block that the handlers repeat verbatim. -/
def clearHighlight (s : MouseState) : MouseState :=
  if 0 ≤ s.lastAreaId then
    {s with highlighted := setAreaHighlighted s.highlighted s.lastAreaId false,
            lastAreaId := -1}
  else s

/-- The `"mouseenter"` handler: records that the pointer is over the NavCube
canvas. -/
def mouseEnter (s : MouseState) : MouseState :=
  {s with over := true}

/-- The `"mouseleave"` handler. -/
def mouseLeave (s : MouseState) : MouseState :=
  {s with over := false}

/-- The `"mousedown"` handler: records the press position, the last drag
position, and whether the press hit the cube. -/
def mouseDown (ex ey clientX clientY : ℚ) (hit : Bool) (s : MouseState) : MouseState :=
  {s with downPos := some (ex, ey), lastPos := (clientX, clientY), down := hit}

/-- The `"mousemove"` handler.  Returns the new state and, when dragging,
the `(yawInc, pitchInc)` pair fed to `camera.orbitYaw(yawInc)` /
`camera.orbitPitch(-pitchInc)` (sensitivity `0.5`; the handler's private
`yaw`/`pitch` accumulators feed nothing observable and are not tracked). -/
def mouseMove (buttons : ℤ) (clientX clientY : ℚ) (pickResult : Option (Option ℤ))
    (s : MouseState) : MouseState × Option (ℚ × ℚ) :=
  let s := clearHighlight s
  if buttons = 1 ∧ ¬ s.down then (s, none)
  else if s.down then
    let yawInc := (clientX - s.lastPos.1) * -(1 / 2)
    let pitchInc := (clientY - s.lastPos.2) * -(1 / 2)
    ({s with cursor := "move", lastPos := (clientX, clientY)}, some (yawInc, pitchInc))
  else if ¬ s.over then (s, none)
  else
    match pickResult with
    | some (some areaId) =>
      let s := {s with cursor := "pointer"}
      if areaId = s.lastAreaId then (s, none)
      else
        let s :=
          if 0 ≤ s.lastAreaId then
            {s with highlighted := setAreaHighlighted s.highlighted s.lastAreaId false}
          else s
        if 0 ≤ areaId then
          ({s with highlighted := setAreaHighlighted s.highlighted areaId true,
                   lastAreaId := areaId}, none)
        else (s, none)
    | some none => (s, none)
    | none =>
      let s := {s with cursor := "default"}
      (clearHighlight s, none)

/-- The `"mouseup"` handler.  `dirOf`/`upOf` stand for
`CubeTextureCanvas.getAreaDir`/`getAreaUp`; the second component is the
`(dir, up)` pair handed to the `flyTo` closure, `none` when no camera move
is requested.  The asynchronous completion callback passed to `flyTo` is
modelled separately as `flyToOk`. -/
def mouseUp (which : ℤ) (ex ey : ℚ) (pickResult : Option (Option ℤ))
    (dirOf upOf : ℤ → Option Vec3) (s : MouseState) :
    MouseState × Option (Vec3 × Option Vec3) :=
  if which ≠ 1 then (s, none)
  else
    let s := {s with down := false}
    match s.downPos with
    | none => (s, none)
    | some (dx, dy) =>
      match pickResult with
      | some (some areaId) =>
        if 0 ≤ areaId then
          let s := {s with cursor := "pointer"}
          let s := clearHighlight s
          let s := {s with highlighted := setAreaHighlighted s.highlighted areaId true,
                           lastAreaId := areaId}
          if ex < dx - 3 ∨ ex > dx + 3 ∨ ey < dy - 3 ∨ ey > dy + 3 then (s, none)
          else
            match dirOf areaId with
            | some dir => (s, some (dir, upOf areaId))
            | none => (s, none)
        else (s, none)
      | some none => (s, none)
      | none => (s, none)

/-- The completion callback the mouseup handler passes to `flyTo`: clears
the recorded highlight, re-picks at the stored canvas position, and
re-highlights the area under the pointer if any. -/
def flyToOk (pickResult : Option (Option ℤ)) (s : MouseState) : MouseState :=
  let s := clearHighlight s
  match pickResult with
  | some (some areaId) =>
    let s := {s with cursor := "pointer"}
    let s := clearHighlight s
    if 0 ≤ areaId then
      {s with highlighted := setAreaHighlighted s.highlighted areaId true,
              lastAreaId := areaId}
    else s
  | _ => s

/-- The claimed highlight invariant: either nothing is highlighted and
`lastAreaId` is `-1`, or exactly the area recorded in `lastAreaId` is
highlighted. -/
def HighlightInv (s : MouseState) : Prop :=
  (s.lastAreaId = -1 ∧ s.highlighted = ∅) ∨
  (0 ≤ s.lastAreaId ∧ s.highlighted = {s.lastAreaId})

instance (s : MouseState) : Decidable (HighlightInv s) := by
  unfold HighlightInv
  infer_instance

/-! ## Construction-time registrations and teardown

The constructor subscribes to engine events and adds DOM listeners; each
registration is identified by its target, event name, and its position in
the constructor's registration order (the subscription handle).  The
subscription handle of the second, anonymous `"worldAxis"` handler is
discarded by the source. -/

/-- The event sources the constructor registers on. -/
inductive EvtTarget where
  | sceneCanvas
  | scene
  | camera
  | cameraPerspective
  | navCubeCanvas
  | document
deriving DecidableEq

/-- One event registration made by the constructor. -/
structure Registration where
  target : EvtTarget
  evt : String
  sid : ℕ
deriving DecidableEq

/-- Every registration the constructor makes, in source order: the four
stored camera subscriptions, the anonymous `"worldAxis"` subscription whose
handle is discarded, the five DOM listeners, and the canvas-boundary and
scene-tick subscriptions. -/
def constructorRegistrations : List Registration :=
  [⟨.camera, "matrix", 0⟩,
   ⟨.camera, "worldAxis", 1⟩,
   ⟨.cameraPerspective, "fov", 2⟩,
   ⟨.camera, "projection", 3⟩,
   ⟨.camera, "worldAxis", 4⟩,
   ⟨.navCubeCanvas, "mouseenter", 5⟩,
   ⟨.navCubeCanvas, "mouseleave", 6⟩,
   ⟨.navCubeCanvas, "mousedown", 7⟩,
   ⟨.document, "mouseup", 8⟩,
   ⟨.document, "mousemove", 9⟩,
   ⟨.sceneCanvas, "boundary", 10⟩,
   ⟨.scene, "tick", 11⟩]

/-- The anonymous `"worldAxis"` subscription of the constructor (its entire
handler body is commented out and its handle is never stored). -/
def anonymousWorldAxisRegistration : Registration := ⟨.camera, "worldAxis", 4⟩

/-- One step of `destroy()`. -/
inductive TeardownStep where
  | unsub (r : Registration)
  | superDestroy
deriving DecidableEq

/-- The steps of `destroy()`, in source order: the six engine
unsubscriptions, the five DOM listener removals, then the base-class
teardown. -/
def destroySteps : List TeardownStep :=
  [.unsub ⟨.sceneCanvas, "boundary", 10⟩,
   .unsub ⟨.scene, "tick", 11⟩,
   .unsub ⟨.camera, "matrix", 0⟩,
   .unsub ⟨.camera, "worldAxis", 1⟩,
   .unsub ⟨.cameraPerspective, "fov", 2⟩,
   .unsub ⟨.camera, "projection", 3⟩,
   .unsub ⟨.navCubeCanvas, "mouseenter", 5⟩,
   .unsub ⟨.navCubeCanvas, "mouseleave", 6⟩,
   .unsub ⟨.navCubeCanvas, "mousedown", 7⟩,
   .unsub ⟨.document, "mousemove", 9⟩,
   .unsub ⟨.document, "mouseup", 8⟩,
   .superDestroy]

/-- The registrations a teardown step removes, if any. -/
def unsubOf (st : TeardownStep) : Option Registration :=
  match st with
  | .unsub r => some r
  | .superDestroy => none

/-! ## Claim theorems -/

/-- C2 (counterexample): the claim says `colorAdjustment` appends exactly 14
fixed strings; on the concrete input `[]` the appended block has 13 lines,
not 14. -/
theorem claim_C2_counterexample :
    ¬ (colorAdjustment []).length = 14 := by
  decide

/-- C2 (amended): `colorAdjustment(src)` appends exactly 13 fixed strings
(the `colorParams` uniform and the `brightnessSaturationAndConstrast` GLSL
function) to the end of `src`, leaves every element already in `src`
unchanged and in place, and the appended text does not depend on the
input. -/
theorem claim_C2_colorAdjustment (src : List String) :
    colorAdjustment src = src ++ colorAdjustmentLines ∧
    colorAdjustmentLines.length = 13 ∧
    (∀ i, i < src.length → (colorAdjustment src).getD i ("") = src.getD i ("")) := by
  refine ⟨colorAdjustment_eq_append src, rfl, ?_⟩
  intro i hi
  rw [colorAdjustment_eq_append]
  exact List.getD_append _ _ _ _ hi

/-- C2 (witness): the amended statement evaluated on the one-element input
`["x"]`. -/
theorem claim_C2_witness :
    colorAdjustment [("x")] = [("x")] ++ colorAdjustmentLines ∧
    ((0 : ℕ) < ([("x")] : List String).length ∧
      (colorAdjustment [("x")]).getD 0 ("") = ([("x")] : List String).getD 0 ("")) := by
  have h := claim_C2_colorAdjustment [("x")]
  exact ⟨h.1, by decide, h.2.2 0 (by decide)⟩

/-- `setAlignment` on one of the four accepted values stores it without
error. -/
theorem setAlignment_of_valid (s : NavCubeState) (a : String)
    (h : a = "bottomRight" ∨ a = "bottomLeft" ∨ a = "topLeft" ∨ a = "topRight") :
    setAlignment s (some a) = ({s with alignment := a, needUpdateLayout := true}, false) := by
  have hcond : ¬ (a ≠ "bottomRight" ∧ a ≠ "bottomLeft" ∧ a ≠ "topLeft" ∧ a ≠ "topRight") := by
    rcases h with rfl | rfl | rfl | rfl <;> simp
  simp [setAlignment, hcond]

/-- `setAlignment` on any other string reports an error and stores the
default. -/
theorem setAlignment_of_invalid (s : NavCubeState) (a : String)
    (h : a ≠ "bottomRight" ∧ a ≠ "bottomLeft" ∧ a ≠ "topLeft" ∧ a ≠ "topRight") :
    setAlignment s (some a)
      = ({s with alignment := "bottomRight", needUpdateLayout := true}, true) := by
  simp [setAlignment, h]

/-- C3: for every string outside the four accepted alignment values,
`setAlignment` reports an error and a subsequent `getAlignment` returns
`"bottomRight"`; for each of the four accepted values it stores the value
without error and `getAlignment` returns it. -/
theorem claim_C3_setAlignment (s : NavCubeState) (a : String) :
    ((a ≠ "bottomRight" ∧ a ≠ "bottomLeft" ∧ a ≠ "topLeft" ∧ a ≠ "topRight") →
      (setAlignment s (some a)).2 = true ∧
      getAlignment (setAlignment s (some a)).1 = "bottomRight") ∧
    ((a = "bottomRight" ∨ a = "bottomLeft" ∨ a = "topLeft" ∨ a = "topRight") →
      (setAlignment s (some a)).2 = false ∧
      getAlignment (setAlignment s (some a)).1 = a) := by
  constructor
  · intro h
    rw [setAlignment_of_invalid s a h]
    exact ⟨rfl, rfl⟩
  · intro h
    rw [setAlignment_of_valid s a h]
    exact ⟨rfl, rfl⟩

/-- C3 (witness): the rejected value `"diagonal"` and the accepted value
`"topLeft"`, on a concrete state. -/
theorem claim_C3_witness :
    (("diagonal" : String) ≠ "bottomRight" ∧ ("diagonal" : String) ≠ "bottomLeft" ∧
      ("diagonal" : String) ≠ "topLeft" ∧ ("diagonal" : String) ≠ "topRight") ∧
    (setAlignment initialTestState (some ("diagonal"))).2 = true ∧
    getAlignment (setAlignment initialTestState (some ("diagonal"))).1 = "bottomRight" ∧
    getAlignment (setAlignment initialTestState (some ("topLeft"))).1 = "topLeft" := by
  have hne : ("diagonal" : String) ≠ "bottomRight" ∧ ("diagonal" : String) ≠ "bottomLeft" ∧
      ("diagonal" : String) ≠ "topLeft" ∧ ("diagonal" : String) ≠ "topRight" := by
    refine ⟨?_, ?_, ?_, ?_⟩ <;> decide
  have h1 := (claim_C3_setAlignment initialTestState ("diagonal")).1 hne
  have h2 := (claim_C3_setAlignment initialTestState ("topLeft")).2
    (Or.inr (Or.inr (Or.inl rfl)))
  exact ⟨hne, h1.1, h1.2, h2.2⟩

/-- C4: every configuration setter/getter pair round-trips: `setSize`
followed by `getSize` returns the value passed, `setSize` with no argument
stores the default `200`, and likewise for visibility, a valid alignment,
the four margins, `cameraFly`, `cameraFitFOV` and `cameraFlyDuration`. -/
theorem claim_C4_roundtrips (s : NavCubeState) (q : ℚ) (b : Bool) (a : String) :
    getSize (setSize s (some q)).1 = q ∧
    getSize (setSize s none).1 = 200 ∧
    getVisible (setVisible s (some b)).1 = b ∧
    ((a = "bottomRight" ∨ a = "bottomLeft" ∨ a = "topLeft" ∨ a = "topRight") →
      getAlignment (setAlignment s (some a)).1 = a) ∧
    getLeftMargin (setLeftMargin s (some q)).1 = q ∧
    getRightMargin (setRightMargin s (some q)).1 = q ∧
    getTopMargin (setTopMargin s (some q)).1 = q ∧
    getBottomMargin (setBottomMargin s (some q)).1 = q ∧
    getCameraFly (setCameraFly s (some b)).1 = b ∧
    getCameraFitFOV (setCameraFitFOV s (some q)).1 = q ∧
    getCameraFlyDuration (setCameraFlyDuration s (some q)).1 = q := by
  refine ⟨rfl, rfl, rfl, ?_, rfl, rfl, rfl, rfl, rfl, rfl, rfl⟩
  intro h
  rw [setAlignment_of_valid s a h]
  rfl

/-- C4 (witness): `setSize(300)` then `getSize()` returns `300`, and the
alignment round-trip at the accepted value `"topLeft"`. -/
theorem claim_C4_witness :
    getSize (setSize initialTestState (some 300)).1 = 300 ∧
    getAlignment (setAlignment initialTestState (some ("topLeft"))).1 = "topLeft" := by
  have h := claim_C4_roundtrips initialTestState 300 true ("topLeft")
  exact ⟨h.1, h.2.2.2.1 (Or.inr (Or.inr (Or.inl rfl)))⟩

/-- C7: no public setter other than `setAlignment` validates or rejects its
argument or signals an error: `setSize`, `setCameraFitFOV`,
`setCameraFlyDuration` and `setCameraFly` store any value (negative values
included) unchanged without a warning, and each margin setter stores any
value other than `null`/`undefined` unchanged. -/
theorem claim_C7_no_validation (s : NavCubeState) (q : ℚ) (b : Bool) :
    (setSize s (some q)).2 = false ∧ (setSize s (some q)).1.size = q ∧
    (setCameraFitFOV s (some q)).2 = false ∧
    (setCameraFitFOV s (some q)).1.cameraFitFOV = q ∧
    (setCameraFlyDuration s (some q)).2 = false ∧
    (setCameraFlyDuration s (some q)).1.cameraFlyDuration = q ∧
    (setCameraFly s (some b)).2 = false ∧ (setCameraFly s (some b)).1.cameraFly = b ∧
    (setLeftMargin s (some q)).2 = false ∧ (setLeftMargin s (some q)).1.leftMargin = q ∧
    (setRightMargin s (some q)).2 = false ∧ (setRightMargin s (some q)).1.rightMargin = q ∧
    (setTopMargin s (some q)).2 = false ∧ (setTopMargin s (some q)).1.topMargin = q ∧
    (setBottomMargin s (some q)).2 = false ∧
    (setBottomMargin s (some q)).1.bottomMargin = q :=
  ⟨rfl, rfl, rfl, rfl, rfl, rfl, rfl, rfl, rfl, rfl, rfl, rfl, rfl, rfl, rfl, rfl⟩

/-- `_updateLayout` always clears the layout-dirty flag. -/
theorem updateLayout_clears (b : CanvasBoundary) (s : NavCubeState) :
    (updateLayout b s).needUpdateLayout = false := by
  simp [updateLayout]

/-- C6: the tick handler recomputes the layout exactly when the dirty flag
is set; the flag is set by every visual setter and by the canvas boundary
event and cleared by the recomputation, so a second consecutive tick changes
nothing; the recomputation writes the style width/height from the size and
positions the canvas by the alignment formulas. -/
theorem claim_C6_layout (s : NavCubeState) (b : CanvasBoundary) (q : ℚ) (v : Bool)
    (a : String) :
    (s.alignment = "bottomRight" →
      (updateLayout b s).styleTop = b.b1 + b.b3 - s.size - s.bottomMargin ∧
      (updateLayout b s).styleLeft = b.b0 + b.b2 - s.size - s.rightMargin) ∧
    onSceneTick b (onSceneTick b s) = onSceneTick b s ∧
    (s.needUpdateLayout = false → onSceneTick b s = s) ∧
    (s.needUpdateLayout = true → onSceneTick b s = updateLayout b s) ∧
    (updateLayout b s).needUpdateLayout = false ∧
    (updateLayout b s).styleWidth = s.size ∧
    (updateLayout b s).styleHeight = s.size ∧
    (s.alignment = "bottomLeft" →
      (updateLayout b s).styleTop = b.b1 + b.b3 - s.size - s.bottomMargin ∧
      (updateLayout b s).styleLeft = s.leftMargin) ∧
    (s.alignment = "topLeft" →
      (updateLayout b s).styleTop = s.topMargin ∧
      (updateLayout b s).styleLeft = s.leftMargin) ∧
    (s.alignment = "topRight" →
      (updateLayout b s).styleTop = s.topMargin ∧
      (updateLayout b s).styleLeft = b.b0 + b.b2 - s.size - s.rightMargin) ∧
    (setVisible s (some v)).1.needUpdateLayout = true ∧
    (setSize s (some q)).1.needUpdateLayout = true ∧
    (setAlignment s (some a)).1.needUpdateLayout = true ∧
    (setLeftMargin s (some q)).1.needUpdateLayout = true ∧
    (setRightMargin s (some q)).1.needUpdateLayout = true ∧
    (setTopMargin s (some q)).1.needUpdateLayout = true ∧
    (setBottomMargin s (some q)).1.needUpdateLayout = true ∧
    (onCanvasBoundary s).needUpdateLayout = true := by
  refine ⟨?_, ?_, ?_, ?_, updateLayout_clears b s, ?_, ?_, ?_, ?_, ?_,
    rfl, rfl, ?_, rfl, rfl, rfl, rfl, rfl⟩
  · intro h
    simp [updateLayout, h]
  · cases hn : s.needUpdateLayout
    · simp [onSceneTick, hn]
    · simp [onSceneTick, hn, updateLayout_clears]
  · intro h
    simp [onSceneTick, h]
  · intro h
    simp [onSceneTick, h]
  · simp only [updateLayout]
    repeat' split
    all_goals rfl
  · simp only [updateLayout]
    repeat' split
    all_goals rfl
  · intro h
    simp [updateLayout, h]
  · intro h
    simp [updateLayout, h]
  · intro h
    simp [updateLayout, h]
  · simp [setAlignment]
    split <;> rfl

/-- C6 (witness): the default state is bottom-right aligned and dirty; one
tick recomputes, the second changes nothing. -/
theorem claim_C6_witness :
    initialTestState.alignment = "bottomRight" ∧
    (updateLayout testBoundary initialTestState).styleTop
      = testBoundary.b1 + testBoundary.b3 - initialTestState.size
        - initialTestState.bottomMargin ∧
    (updateLayout testBoundary initialTestState).styleLeft
      = testBoundary.b0 + testBoundary.b2 - initialTestState.size
        - initialTestState.rightMargin ∧
    onSceneTick testBoundary (onSceneTick testBoundary initialTestState)
      = onSceneTick testBoundary initialTestState := by
  have h := claim_C6_layout initialTestState testBoundary 3 true ("x")
  exact ⟨rfl, (h.1 rfl).1, (h.1 rfl).2, h.2.1⟩

/-- C8 (counterexample): the claim says `destroy` removes exactly the
listeners and subscriptions the constructor registered; the anonymous
`"worldAxis"` subscription (the fifth registration, whose handle the
constructor discards) is registered but never removed. -/
theorem claim_C8_counterexample :
    anonymousWorldAxisRegistration ∈ constructorRegistrations ∧
    TeardownStep.unsub anonymousWorldAxisRegistration ∉ destroySteps := by
  decide

/-- C8 (amended): `destroy` removes, exactly once each and before invoking
the base-class teardown, every listener and subscription the constructor
registered except the anonymous no-op `"worldAxis"` subscription, whose
handle the constructor never stored. -/
theorem claim_C8_destroy :
    List.Perm (destroySteps.filterMap unsubOf)
      (constructorRegistrations.erase anonymousWorldAxisRegistration) ∧
    destroySteps.getLast? = some TeardownStep.superDestroy ∧
    destroySteps.Nodup := by
  refine ⟨?_, rfl, by decide⟩
  decide

/-- A rotation matrix built by `rotationMat4c` has no translation, so
`transformPoint3` and `transformVec3` agree on it. -/
theorem transformPoint3_rotationMat4cX (t : ℝ) (v : Vec3) :
    transformPoint3 (rotationMat4cX t) v = transformVec3 (rotationMat4cX t) v := by
  simp [transformPoint3, transformVec3, rotationMat4cX]

/-- C1: for every camera pose with `eye ≠ look`, `_synchCamera` sets the
NavCube camera's look to the origin; with the Z-up flag unset it sets the
eye to 5 times the normalised `eye - look` vector and copies the main
camera's up vector; with the flag set, eye and up are additionally
transformed by the fixed rotation of −90 degrees about the X axis. -/
theorem claim_C1_synchCamera (zUp : Bool) (eye look up : Vec3) (hne : eye ≠ look) :
    (synchCamera zUp eye look up).look = ⟨0, 0, 0⟩ ∧
    (zUp = false →
      (synchCamera zUp eye look up).eye
        = mulVec3Scalar (normalizeVec3 (subVec3 eye look)) 5 ∧
      (synchCamera zUp eye look up).up = up) ∧
    (zUp = true →
      (synchCamera zUp eye look up).eye
        = transformVec3 (rotationMat4cX (-90 * DEGTORAD))
            (mulVec3Scalar (normalizeVec3 (subVec3 eye look)) 5) ∧
      (synchCamera zUp eye look up).up
        = transformVec3 (rotationMat4cX (-90 * DEGTORAD)) up) := by
  cases zUp with
  | false =>
    refine ⟨rfl, fun _ => ⟨rfl, rfl⟩, fun h => absurd h (by simp)⟩
  | true =>
    refine ⟨rfl, fun h => absurd h (by simp), fun _ => ⟨rfl, ?_⟩⟩
    exact transformPoint3_rotationMat4cX (-90 * DEGTORAD) up

/-- C1 (witness): a concrete pose with `eye ≠ look` and the Z-up flag
set. -/
theorem claim_C1_witness :
    ((⟨3, 0, 0⟩ : Vec3) ≠ (⟨0, 0, 0⟩ : Vec3)) ∧
    (synchCamera true ⟨3, 0, 0⟩ ⟨0, 0, 0⟩ ⟨0, 1, 0⟩).look = ⟨0, 0, 0⟩ ∧
    (synchCamera true ⟨3, 0, 0⟩ ⟨0, 0, 0⟩ ⟨0, 1, 0⟩).up
      = transformVec3 (rotationMat4cX (-90 * DEGTORAD)) ⟨0, 1, 0⟩ := by
  have hne : (⟨3, 0, 0⟩ : Vec3) ≠ (⟨0, 0, 0⟩ : Vec3) := by
    intro h
    have hx := congrArg Vec3.x h
    norm_num at hx
  have h := claim_C1_synchCamera true ⟨3, 0, 0⟩ ⟨0, 0, 0⟩ ⟨0, 1, 0⟩ hne
  exact ⟨hne, h.1, (h.2.2 rfl).2⟩

/-- C5: selecting a cube area targets `look` = AABB centre, `eye` = centre
minus `dist · dir` componentwise with `dist = |diag / tan(55/2)|`, `up` =
the area's up vector or `[0,1,0]`, and `orthoScale = 1.3 · diag`; the move
is a `flyTo` with the stored duration and fit-FOV exactly when the stored
`cameraFly` flag is true, and otherwise a `jumpTo` with no duration. -/
theorem claim_C5_flyTo (cf : Bool) (fov dur : ℚ) (aabb : AABB) (dir : Vec3)
    (up : Option Vec3) :
    (cf = true →
      flyTo cf fov dur aabb dir up
        = CameraMove.fly (getAABB3Center aabb)
            ⟨(getAABB3Center aabb).x - |getAABB3Diag aabb / Real.tan (55 / 2)| * dir.x,
             (getAABB3Center aabb).y - |getAABB3Diag aabb / Real.tan (55 / 2)| * dir.y,
             (getAABB3Center aabb).z - |getAABB3Diag aabb / Real.tan (55 / 2)| * dir.z⟩
            (up.getD ⟨0, 1, 0⟩) (1.3 * getAABB3Diag aabb) fov dur) ∧
    (cf = false →
      flyTo cf fov dur aabb dir up
        = CameraMove.jump (getAABB3Center aabb)
            ⟨(getAABB3Center aabb).x - |getAABB3Diag aabb / Real.tan (55 / 2)| * dir.x,
             (getAABB3Center aabb).y - |getAABB3Diag aabb / Real.tan (55 / 2)| * dir.y,
             (getAABB3Center aabb).z - |getAABB3Diag aabb / Real.tan (55 / 2)| * dir.z⟩
            (up.getD ⟨0, 1, 0⟩) (1.3 * getAABB3Diag aabb) fov) := by
  cases cf with
  | false =>
    refine ⟨fun h => absurd h (by simp), fun _ => ?_⟩
    simp only [flyTo, if_neg Bool.false_ne_true, Bool.false_eq_true, if_false]
    congr 1
    exact mul_comm _ _
  | true =>
    refine ⟨fun _ => ?_, fun h => absurd h (by simp)⟩
    simp only [flyTo, if_true]
    congr 1
    exact mul_comm _ _

/-- A concrete scene bounding box for instantiating the flyTo theorem. -/
def testAABB : AABB :=
  { xmin := 0, ymin := 0, zmin := 0, xmax := 2, ymax := 2, zmax := 2 }

/-- A concrete area direction for instantiating the flyTo theorem. -/
def testDir : Vec3 := ⟨0, 0, 1⟩

/-- C5 (witness): both branches of the claim instantiated at a concrete
configuration, bounding box and direction. -/
theorem claim_C5_witness :
    flyTo true 45 (1 / 2) testAABB testDir none
      = CameraMove.fly (getAABB3Center testAABB)
          ⟨(getAABB3Center testAABB).x
             - |getAABB3Diag testAABB / Real.tan (55 / 2)| * testDir.x,
           (getAABB3Center testAABB).y
             - |getAABB3Diag testAABB / Real.tan (55 / 2)| * testDir.y,
           (getAABB3Center testAABB).z
             - |getAABB3Diag testAABB / Real.tan (55 / 2)| * testDir.z⟩
          ((none : Option Vec3).getD ⟨0, 1, 0⟩) (1.3 * getAABB3Diag testAABB)
          45 (1 / 2) ∧
    flyTo false 45 (1 / 2) testAABB testDir none
      = CameraMove.jump (getAABB3Center testAABB)
          ⟨(getAABB3Center testAABB).x
             - |getAABB3Diag testAABB / Real.tan (55 / 2)| * testDir.x,
           (getAABB3Center testAABB).y
             - |getAABB3Diag testAABB / Real.tan (55 / 2)| * testDir.y,
           (getAABB3Center testAABB).z
             - |getAABB3Diag testAABB / Real.tan (55 / 2)| * testDir.z⟩
          ((none : Option Vec3).getD ⟨0, 1, 0⟩) (1.3 * getAABB3Diag testAABB) 45 :=
  ⟨(claim_C5_flyTo true 45 (1 / 2) testAABB testDir none).1 rfl,
   (claim_C5_flyTo false 45 (1 / 2) testAABB testDir none).2 rfl⟩

/-- Under the highlight invariant, the clearing block leaves no highlighted
area and `lastAreaId = -1`. -/
theorem clearHighlight_of_inv (s : MouseState) (h : HighlightInv s) :
    (clearHighlight s).lastAreaId = -1 ∧ (clearHighlight s).highlighted = ∅ := by
  rcases h with ⟨h1, h2⟩ | ⟨h1, h2⟩
  · have hneg : ¬ (0 ≤ s.lastAreaId) := by rw [h1]; decide
    rw [clearHighlight, if_neg hneg]
    exact ⟨h1, h2⟩
  · rw [clearHighlight, if_pos h1]
    refine ⟨rfl, ?_⟩
    show s.highlighted.erase s.lastAreaId = ∅
    rw [h2]
    exact Finset.erase_singleton _

set_option maxHeartbeats 2000000 in
/-- C9: each of the mousemove handler, the mouseup handler and the flyTo
completion callback preserves the invariant that at most one texture area is
highlighted and `lastAreaId` is its id, or `-1` when none is highlighted. -/
theorem claim_C9_highlight_invariant (buttons which : ℤ) (cx cy ex ey : ℚ)
    (p1 p2 p3 : Option (Option ℤ)) (dirOf upOf : ℤ → Option Vec3) (s : MouseState)
    (h : HighlightInv s) :
    HighlightInv (mouseMove buttons cx cy p1 s).1 ∧
    HighlightInv (mouseUp which ex ey p2 dirOf upOf s).1 ∧
    HighlightInv (flyToOk p3 s) := by
  obtain ⟨dn, ov, dp, lp, la, hi, cu⟩ := s
  rcases h with ⟨h1, h2⟩ | ⟨h1, h2⟩
  · refine ⟨?_, ?_, ?_⟩
    · rcases p1 with _ | _ | a1 <;>
        simp [mouseMove, clearHighlight, setAreaHighlighted, HighlightInv, h1, h2] <;>
        (try split_ifs) <;> simp_all
    · rcases p2 with _ | _ | a2 <;>
        rcases dp with _ | ⟨dx, dy⟩ <;>
        simp [mouseUp, clearHighlight, setAreaHighlighted, HighlightInv, h1, h2] <;>
        (try split_ifs) <;> simp_all <;>
        rcases hdir : dirOf a2 with _ | d <;> simp_all
    · rcases p3 with _ | _ | a3 <;>
        simp [flyToOk, clearHighlight, setAreaHighlighted, HighlightInv, h1, h2] <;>
        (try split_ifs) <;> simp_all
  · refine ⟨?_, ?_, ?_⟩
    · rcases p1 with _ | _ | a1 <;>
        simp [mouseMove, clearHighlight, setAreaHighlighted, HighlightInv, h1, h2,
          Finset.erase_singleton] <;>
        (try split_ifs) <;> simp_all
    · rcases p2 with _ | _ | a2 <;>
        rcases dp with _ | ⟨dx, dy⟩ <;>
        simp [mouseUp, clearHighlight, setAreaHighlighted, HighlightInv, h1, h2,
          Finset.erase_singleton] <;>
        (try split_ifs) <;> simp_all <;>
        rcases hdir : dirOf a2 with _ | d <;> simp_all
    · rcases p3 with _ | _ | a3 <;>
        simp [flyToOk, clearHighlight, setAreaHighlighted, HighlightInv, h1, h2,
          Finset.erase_singleton] <;>
        (try split_ifs) <;> simp_all

/-- C9 (witness): the invariant holds of the idle state and is preserved by
a concrete mousemove, mouseup and callback run. -/
theorem claim_C9_witness :
    HighlightInv
      { down := false, over := true, downPos := none, lastPos := (0, 0),
        lastAreaId := -1, highlighted := ∅, cursor := "default" } ∧
    HighlightInv (mouseMove 0 5 5 (some (some 2))
      { down := false, over := true, downPos := none, lastPos := (0, 0),
        lastAreaId := -1, highlighted := ∅, cursor := "default" }).1 := by
  have hinv : HighlightInv
      { down := false, over := true, downPos := none, lastPos := (0, 0),
        lastAreaId := -1, highlighted := ∅, cursor := "default" } := by
    exact Or.inl ⟨rfl, rfl⟩
  exact ⟨hinv, (claim_C9_highlight_invariant 0 1 5 5 0 0 (some (some 2)) none none
    (fun _ => none) (fun _ => none) _ hinv).1⟩

/-- C10: a mouseup with a button other than the left changes no state at
all; a camera move is requested only when the pointer is within 3 pixels of
the mousedown position on each axis; a left-button mouseup on a pickable
area outside that box still highlights the hit area but requests no camera
move. -/
theorem claim_C10_mouseup_guard (which : ℤ) (ex ey dx dy : ℚ) (a : ℤ)
    (p : Option (Option ℤ)) (dirOf upOf : ℤ → Option Vec3) (s : MouseState) :
    (which ≠ 1 → mouseUp which ex ey p dirOf upOf s = (s, none)) ∧
    ((mouseUp which ex ey p dirOf upOf s).2.isSome = true →
      which = 1 ∧ ∃ q1 q2, s.downPos = some (q1, q2) ∧
        q1 - 3 ≤ ex ∧ ex ≤ q1 + 3 ∧ q2 - 3 ≤ ey ∧ ey ≤ q2 + 3) ∧
    (which = 1 → s.downPos = some (dx, dy) → p = some (some a) → 0 ≤ a →
      (ex < dx - 3 ∨ ex > dx + 3 ∨ ey < dy - 3 ∨ ey > dy + 3) →
      (mouseUp which ex ey p dirOf upOf s).2 = none ∧
      (mouseUp which ex ey p dirOf upOf s).1.lastAreaId = a ∧
      a ∈ (mouseUp which ex ey p dirOf upOf s).1.highlighted) := by
  obtain ⟨dn, ov, dp, lp, la, hi, cu⟩ := s
  refine ⟨?_, ?_, ?_⟩
  · intro hw
    simp [mouseUp, hw]
  · intro hsome
    by_cases hw : which = 1
    · subst hw
      refine ⟨rfl, ?_⟩
      rcases dp with _ | ⟨q1, q2⟩
      · simp [mouseUp] at hsome
      · rcases p with _ | _ | a2
        · simp [mouseUp] at hsome
        · simp [mouseUp] at hsome
        · by_cases h0 : 0 ≤ a2
          · by_cases hbox : ex < q1 - 3 ∨ ex > q1 + 3 ∨ ey < q2 - 3 ∨ ey > q2 + 3
            · simp [mouseUp, h0, hbox] at hsome
            · push_neg at hbox
              exact ⟨q1, q2, rfl, hbox.1, hbox.2.1, hbox.2.2.1, hbox.2.2.2⟩
          · simp [mouseUp, h0] at hsome
    · simp [mouseUp, hw] at hsome
  · intro hw hdp hp h0 hbox
    subst hw
    replace hdp : dp = some (dx, dy) := hdp
    subst hdp
    subst hp
    simp [mouseUp, h0, hbox, setAreaHighlighted]

/-- A concrete mouse state with a recorded mousedown at the origin. -/
def testMouseState : MouseState :=
  { down := true, over := true, downPos := some (0, 0), lastPos := (0, 0),
    lastAreaId := -1, highlighted := ∅, cursor := "default" }

/-- C10 (witness): a right-button mouseup changes nothing, and a left-button
mouseup 10 pixels away from the mousedown point highlights area 5 but
requests no camera move. -/
theorem claim_C10_witness :
    mouseUp 2 10 0 (some (some 5)) (fun _ => none) (fun _ => none) testMouseState
      = (testMouseState, none) ∧
    ((mouseUp 1 10 0 (some (some 5)) (fun _ => none) (fun _ => none)
        testMouseState).2 = none ∧
      (mouseUp 1 10 0 (some (some 5)) (fun _ => none) (fun _ => none)
        testMouseState).1.lastAreaId = 5 ∧
      (5 : ℤ) ∈ (mouseUp 1 10 0 (some (some 5)) (fun _ => none) (fun _ => none)
        testMouseState).1.highlighted) := by
  constructor
  · exact (claim_C10_mouseup_guard 2 10 0 0 0 5 (some (some 5)) (fun _ => none)
      (fun _ => none) testMouseState).1 (by decide)
  · exact (claim_C10_mouseup_guard 1 10 0 0 0 5 (some (some 5)) (fun _ => none)
      (fun _ => none) testMouseState).2.2 rfl rfl rfl (by decide)
      (Or.inr (Or.inl (by norm_num)))
